import Mathlib

/-!
# Verification of the Solana IDL health check

A shallow embedding of `src/action.ts` and `src/check-idl.ts` from
glamsystems/solana-idl-check, together with theorems settling the claims of
the specification against it.

Modelling conventions:

* A Solana public key is modelled by the natural number that `bn.js` stores
  for it (`new BN(bytes)` reads the bytes big-endian); `pkBytes32` recovers
  the canonical 32-byte buffer (`PublicKey.toBuffer`, zero-padded on the
  left) and `base58Encode32` mirrors `PublicKey.toBase58`.
* Byte buffers are `List Nat` whose entries are meant to be `< 256`
  (hypotheses state this where it matters).
* The environment, the RPC account lookup and the Helius history endpoint
  are explicit inputs (`Env`, `Oracle`); `run` is the orchestrator `main`
  of `check-idl.ts`, returning the process exit code plus the externally
  observable events (connection URL, addresses queried for history, whether
  the post-fetch comparison logic ran, its verdict, the propagated error,
  and the data `printReport` renders).
-/

/-- The base58 alphabet used by `bs58` (Bitcoin alphabet), which
`@solana/web3.js` uses for `PublicKey` text encoding. -/
def BASE58_ALPHABET : List Char :=
  "123456789ABCDEFGHJKLMNPQRSTUVWXYZabcdefghijkmnopqrstuvwxyz".toList

/-- Value of one base58 character; `none` for a character outside the
alphabet (`bs58.decode` rejects such input). -/
def base58CharValue (c : Char) : Option Nat :=
  let i := BASE58_ALPHABET.indexOf c
  if i < BASE58_ALPHABET.length then some i else none

/-- Numeric value of a base58 string (big-endian fold), `none` on an
invalid character. -/
def base58DecodeNat (s : String) : Option Nat :=
  s.toList.foldl
    (fun acc c => acc.bind (fun a => (base58CharValue c).map (fun v => a * 58 + v)))
    (some 0)

/-- Number of leading `'1'` characters of a base58 string; each stands for
one leading zero byte of the decoded buffer. -/
def leadingOnes (s : String) : Nat :=
  (s.toList.takeWhile (fun c => c = '1')).length

/-- Base-`b` digits of `n`, least significant first, with explicit fuel so
that the definition is structural (kernel-reducible). -/
def natDigitsAux (b : Nat) : Nat → Nat → List Nat
  | 0, _ => []
  | fuel + 1, n => if n = 0 then [] else n % b :: natDigitsAux b fuel (n / b)

/-- Base-`b` digits of `n`, least significant first (`n` itself is always
enough fuel). -/
def natDigits (b n : Nat) : List Nat :=
  natDigitsAux b n n

/-- Mirrors `BN.byteLength()`: number of bytes of the minimal big-endian
representation (`0` for the value zero). -/
def byteLen (n : Nat) : Nat :=
  (natDigits 256 n).length

/-- Mirrors `new BN(bytes)`: big-endian numeric value of a byte buffer. -/
def bnOfBytes (bs : List Nat) : Nat :=
  bs.foldl (fun a b => a * 256 + b) 0

/-- Mirrors `PublicKey.toBuffer()`: the canonical 32-byte big-endian buffer of a
key value, zero-padded on the left. -/
def pkBytes32 (n : Nat) : List Nat :=
  List.replicate (32 - byteLen n) 0 ++ (natDigits 256 n).reverse

/-- Mirrors `PublicKey.toBase58()`: base58 text of the canonical 32-byte buffer;
leading zero bytes render as `'1'`. -/
def base58Encode32 (n : Nat) : String :=
  String.mk
    (List.replicate (32 - byteLen n) '1'
      ++ (natDigits 58 n).reverse.map (fun d => BASE58_ALPHABET.getD d '1'))

/-- Mirrors `new PublicKey(string)`: decode base58 and require the decoded buffer
to be exactly 32 bytes long (leading `'1'`s count as zero bytes). -/
def pubkeyFromBase58 (s : String) : Option Nat :=
  match base58DecodeNat s with
  | none => none
  | some v => if leadingOnes s + byteLen v = 32 then some v else none

/-- Mirrors `new PublicKey(bytes)` for a raw buffer: the stored `BN` value; fails
(the constructor throws) when the value needs more than 32 bytes. -/
def publicKeyFromBytes (bs : List Nat) : Option Nat :=
  let v := bnOfBytes bs
  if 32 < byteLen v then none else some v

/-- Mirrors `new PublicKey('BPFLoaderUpgradeab1e11111111111111111111111')`, the
owner that marks a program as upgradeable (`check-idl.ts`). -/
def BPF_LOADER_UPGRADEABLE_PROGRAM_ID : Nat :=
  (pubkeyFromBase58 "BPFLoaderUpgradeab1e11111111111111111111111").getD 0

/-- The `HeliusTx` record of `check-idl.ts`; only `signature` and
`timestamp` are consumed downstream (`type`/`source`/`blockTime` never
are), so only those are modelled. -/
structure HeliusTx where
  signature : String
  timestamp : Int
deriving DecidableEq

/-- Result of `connection.getAccountInfo`: the owner key and raw data
buffer of an account. -/
structure AccountInfo where
  owner : Nat
  data : List Nat
deriving DecidableEq

/-- One Helius history response: either a transport-level failure (the
`axios` call throws, with a message) or the transaction list, newest
first. -/
abbrev FetchResult : Type :=
  Except String (List HeliusTx)

/-- The failures `main` can propagate to its `.catch` handler. -/
inductive RunError where
  /-- Mirrors `throw new Error('Program account ... not found ...')`. -/
  | programNotFound (programIdB58 : String)
  /-- Mirrors `new PublicKey(CONFIG.PROGRAM_ID!)` threw (bad base58 / length). -/
  | invalidProgramId
  /-- Mirrors `buffer.readUInt32LE(0)` threw `ERR_OUT_OF_RANGE` (data < 4 bytes). -/
  | bufferOutOfRange
  /-- Mirrors `new PublicKey(buffer.subarray(4, 36))` threw (value over 32 bytes). -/
  | invalidPublicKey
  /-- A history fetch threw: `getLatestTransaction` logs the label and
  rethrows the transport error, whose request URL embeds the address. -/
  | fetch (address : String) (label : String) (message : String)
deriving DecidableEq

/-- Verdict vocabulary of the specification, mapped onto the branches of
`main` after both history fetches resolve: no program-data history is the
"Cannot determine upgrade status" branch (INDETERMINATE), no IDL history
is the "IDL account has no history" branch (INDETERMINATE), otherwise the
timestamp comparison yields OUTDATED or OK. -/
inductive Verdict where
  | OK
  | OUTDATED
  | INDETERMINATE
deriving DecidableEq

/-- The data `printReport` renders: the report text is a pure function of
these five values. -/
structure ReportData where
  progId : String
  progData : String
  idlAccount : Option String
  progTx : Option HeliusTx
  idlTx : Option HeliusTx
deriving DecidableEq

/-- Externally observable outcome of one run of `main`. -/
structure RunResult where
  /-- Argument of `process.exit`. -/
  exitCode : Nat
  /-- URL the `Connection` was built from, once constructed. -/
  connectionUrl : Option String
  /-- Addresses handed to `getLatestTransaction`, in program order. -/
  fetchedAddresses : List String
  /-- Whether control reached the post-fetch comparison logic
  (lines 62-88 of `check-idl.ts`). -/
  comparatorEvaluated : Bool
  /-- Verdict of the comparison logic, when it ran. -/
  verdict : Option Verdict
  /-- Error propagated to `main().catch` / thrown helper, if any. -/
  error : Option RunError
  /-- Data of the printed status report, when `printReport` ran. -/
  report : Option ReportData
deriving DecidableEq

/-- The process environment variables `check-idl.ts` and `action.ts`
touch (`none` = unset). -/
structure Env where
  RPC_URL : Option String
  SOLANA_CLUSTER : Option String
  HELIUS_API_KEY : Option String
  PROGRAM_ID : Option String
  IDL_ACCOUNT : Option String
  LOOKBACK_LIMIT : Option String
deriving DecidableEq

/-- JavaScript falsiness of an optional string: `undefined` and `''` are
both falsy (`!CONFIG.X`, `process.env.X || default`). -/
def isMissing : Option String → Bool
  | none => true
  | some s => s.isEmpty

/-- Mirrors `process.env.X || default`. -/
def orDefault (v : Option String) (d : String) : String :=
  match v with
  | none => d
  | some s => if s.isEmpty then d else s

/-- The `CONFIG` object of `check-idl.ts`. `LOOKBACK_LIMIT` is parsed from
this field but never used afterwards, so the raw string is kept. Note that
`RPC_URL` is *not* read: `CONFIG` has no such field. -/
structure Config where
  SOLANA_CLUSTER : String
  HELIUS_API_KEY : Option String
  PROGRAM_ID : Option String
  IDL_ACCOUNT : Option String
  LOOKBACK_LIMIT : Option String
deriving DecidableEq

/-- Construction of `CONFIG` from the environment. -/
def mkConfig (e : Env) : Config :=
  { SOLANA_CLUSTER := orDefault e.SOLANA_CLUSTER "mainnet-beta"
    HELIUS_API_KEY := e.HELIUS_API_KEY
    PROGRAM_ID := e.PROGRAM_ID
    IDL_ACCOUNT := e.IDL_ACCOUNT
    LOOKBACK_LIMIT := e.LOOKBACK_LIMIT }

/-- The chain-side collaborators of one run: the RPC account lookup for
the program id, and the Helius history endpoint keyed by the queried
address string. -/
structure Oracle where
  accountInfo : Option AccountInfo
  history : String → FetchResult


/-- Mirrors `Buffer.prototype.readUInt32LE(offset)`: little-endian 32-bit read;
Node throws `ERR_OUT_OF_RANGE` (here `none`) unless `offset + 4 <=
length`. -/
def readUInt32LE (data : List Nat) (offset : Nat) : Option Nat :=
  if offset + 4 ≤ data.length then
    some (data.getD offset 0
      + data.getD (offset + 1) 0 * 256
      + data.getD (offset + 2) 0 * (256 * 256)
      + data.getD (offset + 3) 0 * (256 * 256 * 256))
  else none

/-- Mirrors `TypedArray.prototype.subarray(s, e)`: the slice `[s, e)`, with both
bounds clamped to the buffer length. -/
def subarray (data : List Nat) (s e : Nat) : List Nat :=
  (data.take e).drop s

/-- Function `getProgramDataAddress` of `check-idl.ts`, with the
`connection.getAccountInfo(programId)` response passed in explicitly.
Throws (`Except.error`) when the account is missing, the status read is
out of range, or the extracted key is invalid; returns `Option Nat`
(`none` = not an upgradeable program). -/
def getProgramDataAddress (info : Option AccountInfo) (programIdB58 : String) :
    Except RunError (Option Nat) :=
  match info with
  | none => Except.error (RunError.programNotFound programIdB58)
  | some i =>
    if i.owner = BPF_LOADER_UPGRADEABLE_PROGRAM_ID then
      match readUInt32LE i.data 0 with
      | none => Except.error RunError.bufferOutOfRange
      | some status =>
        if status = 3 then
          match publicKeyFromBytes (subarray i.data 4 36) with
          | none => Except.error RunError.invalidPublicKey
          | some pk => Except.ok (some pk)
        else Except.ok none
    else Except.ok none

/-- Function `getLatestTransaction` of `check-idl.ts`, with the Helius response for
`address` passed in explicitly: a transport failure is logged (label,
message) and rethrown -- modelled as an error carrying the queried address,
the label, and the message; otherwise the newest transaction (`txs[0]`) or
`null` when the list is empty. -/
def getLatestTransaction (address label : String) (response : FetchResult) :
    Except RunError (Option HeliusTx) :=
  match response with
  | Except.error msg => Except.error (RunError.fetch address label msg)
  | Except.ok txs => Except.ok txs.head?

/-- Lines 62-88 of `check-idl.ts` (after both fetches resolved): the
freshness comparison and its exit code. `!programUpgrade` warns and exits
0; `!idlUpgrade` fails with exit 1; otherwise strict
`programUpgrade.timestamp > idlUpgrade.timestamp` decides OUTDATED (exit
1) versus OK (exit 0). -/
def compareChange : Option HeliusTx → Option HeliusTx → Verdict × Nat
  | none, _ => (Verdict.INDETERMINATE, 0)
  | some _, none => (Verdict.INDETERMINATE, 1)
  | some p, some i =>
    if p.timestamp > i.timestamp then (Verdict.OUTDATED, 1) else (Verdict.OK, 0)

/-- The orchestrator `main` of `check-idl.ts` (with `main().catch` =>
`process.exit(1)` folded in), as a pure function of the environment and
the chain oracle. Control flow in source order: `validateConfig`, `new
PublicKey(CONFIG.PROGRAM_ID!)`, `new Connection(...)` built from
`SOLANA_CLUSTER`, `getProgramDataAddress` (null => exit 0, nothing
fetched), the two concurrent `getLatestTransaction` calls (a rejection
exits 1 before any comparison; when both reject, the model
deterministically reports the program-data one), `printReport`, then the
comparison. -/
def run (e : Env) (o : Oracle) : RunResult :=
  let cfg := mkConfig e
  if isMissing cfg.HELIUS_API_KEY || isMissing cfg.PROGRAM_ID || isMissing cfg.IDL_ACCOUNT then
    ⟨1, none, [], false, none, none, none⟩
  else
    match pubkeyFromBase58 (cfg.PROGRAM_ID.getD "") with
    | none => ⟨1, none, [], false, none, some RunError.invalidProgramId, none⟩
    | some programId =>
      let connectionUrl := "https://api." ++ cfg.SOLANA_CLUSTER ++ ".solana.com"
      match getProgramDataAddress o.accountInfo (base58Encode32 programId) with
      | Except.error err => ⟨1, some connectionUrl, [], false, none, some err, none⟩
      | Except.ok none => ⟨0, some connectionUrl, [], false, none, none, none⟩
      | Except.ok (some programDataAddress) =>
        let pdAddr := base58Encode32 programDataAddress
        let idlAddr := cfg.IDL_ACCOUNT.getD ""
        match getLatestTransaction pdAddr "ProgramData" (o.history pdAddr) with
        | Except.error fe =>
          ⟨1, some connectionUrl, [pdAddr, idlAddr], false, none, some fe, none⟩
        | Except.ok programUpgrade =>
          match getLatestTransaction idlAddr "IDL Account" (o.history idlAddr) with
          | Except.error fe =>
            ⟨1, some connectionUrl, [pdAddr, idlAddr], false, none, some fe, none⟩
          | Except.ok idlUpgrade =>
            let rep := ReportData.mk (base58Encode32 programId) pdAddr
              cfg.IDL_ACCOUNT programUpgrade idlUpgrade
            let vc := compareChange programUpgrade idlUpgrade
            ⟨vc.2, some connectionUrl, [pdAddr, idlAddr], true, some vc.1, none, some rep⟩

/-- Model of `action.ts`: map the GitHub Action inputs `rpc-url` and `program-id`
onto the environment variables `RPC_URL` and `PROGRAM_ID`, then run the
check. -/
def applyActionInputs (rpcUrl programId : String) (e : Env) : Env :=
  { e with RPC_URL := some rpcUrl, PROGRAM_ID := some programId }

deriving instance DecidableEq for Except

/-- Little-endian base-256 value of a digit list (proof helper: `bnOfBytes
l = ofLE l.reverse`). -/
def ofLE : List Nat → Nat
  | [] => 0
  | d :: ds => d + 256 * ofLE ds

/-- A well-formed 32-byte program id in base58: thirty-two `'1'`s (the
all-zero key). -/
def pid32 : String :=
  String.mk (List.replicate 32 '1')

/-- A fully configured environment for concrete runs. -/
def envBase : Env :=
  { RPC_URL := none, SOLANA_CLUSTER := none, HELIUS_API_KEY := some "helius-key"
    PROGRAM_ID := some pid32, IDL_ACCOUNT := some "idl-account", LOOKBACK_LIMIT := none }

/-- Environment `envBase` with only the `IDL_ACCOUNT` variable changed. -/
def envOtherIdl : Env :=
  { envBase with IDL_ACCOUNT := some "other-idl" }

/-- A program account in the loader's `Program` state (tag 3) pointing at
the all-zero program-data address. -/
def upgradeableAccount : AccountInfo :=
  { owner := BPF_LOADER_UPGRADEABLE_PROGRAM_ID
    data := [3, 0, 0, 0] ++ List.replicate 32 0 }

/-- A program account in `Program` state whose program-data address bytes
are `0, 1, ..., 31`. -/
def c4Account : AccountInfo :=
  { owner := BPF_LOADER_UPGRADEABLE_PROGRAM_ID
    data := [3, 0, 0, 0] ++ List.range 32 }

/-- A loader-owned program account whose data is only the 4 status bytes
(shorter than the 36 the layout needs). -/
def shortDataAccount : AccountInfo :=
  { owner := BPF_LOADER_UPGRADEABLE_PROGRAM_ID
    data := [3, 0, 0, 0] }

/-- Every address has exactly one transaction, at timestamp 5. -/
def oracleAllTx5 : Oracle :=
  { accountInfo := some upgradeableAccount
    history := fun _ => Except.ok [{ signature := "sig", timestamp := 5 }] }

/-- The IDL account has history, the program-data account has none. -/
def oracleNoProgramHistory : Oracle :=
  { accountInfo := some upgradeableAccount
    history := fun a => if a = "idl-account"
      then Except.ok [{ signature := "sig", timestamp := 5 }]
      else Except.ok [] }

/-- The program-data account has history, the IDL account has none. -/
def oracleNoIdlHistory : Oracle :=
  { accountInfo := some upgradeableAccount
    history := fun a => if a = "idl-account"
      then Except.ok []
      else Except.ok [{ signature := "sig", timestamp := 5 }] }

/-- Every history fetch fails at the transport level. -/
def oracleTransportFail : Oracle :=
  { accountInfo := some upgradeableAccount
    history := fun _ => Except.error "network down" }

/-- The program account is owned by some other program (key value 1). -/
def oracleForeignOwner : Oracle :=
  { accountInfo := some { owner := 1, data := [] }
    history := fun _ => Except.ok [] }

/-- The program account is loader-owned but its data is 4 bytes long. -/
def oracleShortData : Oracle :=
  { accountInfo := some shortDataAccount
    history := fun _ => Except.ok [{ signature := "sig", timestamp := 5 }] }

/-- The fuel argument of `natDigitsAux` is irrelevant once it is at least
the number being converted. -/
lemma natDigitsAux_fuel (b : Nat) (hb : 2 ≤ b) :
    ∀ f₁ n f₂ : Nat, n ≤ f₁ → n ≤ f₂ → natDigitsAux b f₁ n = natDigitsAux b f₂ n := by
  intro f₁
  induction f₁ with
  | zero =>
    intro n f₂ h1 _
    have hn : n = 0 := Nat.le_zero.mp h1
    subst hn
    cases f₂ <;> simp [natDigitsAux]
  | succ g ih =>
    intro n f₂ h1 h2
    by_cases hn : n = 0
    · subst hn
      cases f₂ <;> simp [natDigitsAux]
    · have hf₂ : f₂ ≠ 0 := by omega
      obtain ⟨g₂, rfl⟩ := Nat.exists_eq_succ_of_ne_zero hf₂
      have hdiv : n / b < n := Nat.div_lt_self (Nat.pos_of_ne_zero hn) hb
      simp only [natDigitsAux, if_neg hn]
      exact congrArg _ (ih (n / b) g₂ (by omega) (by omega))

/-- Unfolding equation for `natDigits` on a nonzero argument. -/
lemma natDigits_cons (b n : Nat) (hb : 2 ≤ b) (hn : n ≠ 0) :
    natDigits b n = n % b :: natDigits b (n / b) := by
  obtain ⟨m, rfl⟩ := Nat.exists_eq_succ_of_ne_zero hn
  have hdiv : (m + 1) / b < m + 1 := Nat.div_lt_self (Nat.succ_pos m) hb
  simp only [natDigits, natDigitsAux, if_neg hn]
  exact congrArg _ (natDigitsAux_fuel b hb m ((m + 1) / b) ((m + 1) / b) (by omega) le_rfl)

/-- Appending a most-significant digit. -/
lemma ofLE_append (r : List Nat) (x : Nat) :
    ofLE (r ++ [x]) = ofLE r + x * 256 ^ r.length := by
  induction r with
  | nil => simp [ofLE]
  | cons d ds ih =>
    show d + 256 * ofLE (ds ++ [x]) = d + 256 * ofLE ds + x * 256 ^ (ds.length + 1)
    rw [ih]
    ring

/-- The big-endian fold of `new BN(bytes)` equals the little-endian value
of the reversed list. -/
lemma bnOfBytes_eq_ofLE (l : List Nat) : bnOfBytes l = ofLE l.reverse := by
  have aux : ∀ (l : List Nat) (acc : Nat),
      l.foldl (fun a b => a * 256 + b) acc = acc * 256 ^ l.length + ofLE l.reverse := by
    intro l
    induction l with
    | nil => simp [ofLE]
    | cons x xs ih =>
      intro acc
      simp only [List.foldl_cons, ih, List.reverse_cons, ofLE_append,
        List.length_reverse, List.length_cons]
      ring
  simpa using aux l 0

/-- Digits of a little-endian byte value: at most as many digits as bytes,
and padding the digits back with zeros recovers the byte list. -/
lemma natDigits_ofLE (r : List Nat) (hb : ∀ x ∈ r, x < 256) :
    (natDigits 256 (ofLE r)).length ≤ r.length
    ∧ List.replicate (r.length - (natDigits 256 (ofLE r)).length) 0
        ++ (natDigits 256 (ofLE r)).reverse = r.reverse := by
  induction r with
  | nil => simp [ofLE, natDigits, natDigitsAux]
  | cons d ds ih =>
    have hd : d < 256 := hb d (List.mem_cons_self d ds)
    have hds : ∀ x ∈ ds, x < 256 := fun x hx => hb x (List.mem_cons_of_mem d hx)
    obtain ⟨ih1, ih2⟩ := ih hds
    have hofle : ofLE (d :: ds) = d + 256 * ofLE ds := rfl
    by_cases hv : d + 256 * ofLE ds = 0
    · have hd0 : d = 0 := by omega
      have he0 : ofLE ds = 0 := by omega
      rw [hofle, hv]
      have hdig0 : natDigits 256 0 = [] := rfl
      rw [he0, hdig0] at ih2
      simp only [List.length_nil, Nat.sub_zero, List.reverse_nil,
        List.append_nil] at ih2
      refine ⟨by simp [hdig0], ?_⟩
      simp only [hdig0, List.length_nil, List.length_cons, Nat.sub_zero,
        List.reverse_nil, List.append_nil, List.reverse_cons]
      rw [List.replicate_succ' ds.length 0, ih2, hd0]
    · rw [hofle, natDigits_cons 256 _ (by norm_num) hv]
      have hmod : (d + 256 * ofLE ds) % 256 = d := by
        rw [Nat.add_mul_mod_self_left]
        exact Nat.mod_eq_of_lt hd
      have hdiv : (d + 256 * ofLE ds) / 256 = ofLE ds := by
        rw [Nat.add_mul_div_left _ _ (by norm_num : 0 < 256)]
        rw [Nat.div_eq_of_lt hd]
        omega
      rw [hmod, hdiv]
      refine ⟨by simpa using Nat.succ_le_succ ih1, ?_⟩
      simp only [List.length_cons, List.reverse_cons, Nat.succ_sub_succ]
      rw [← List.append_assoc, ih2]

/-- The minimal byte length of a byte buffer's value never exceeds the
buffer's length. -/
lemma byteLen_bnOfBytes_le (l : List Nat) (hb : ∀ x ∈ l, x < 256) :
    byteLen (bnOfBytes l) ≤ l.length := by
  have hr : ∀ x ∈ l.reverse, x < 256 := fun x hx => hb x (List.mem_reverse.mp hx)
  have h := (natDigits_ofLE l.reverse hr).1
  rw [bnOfBytes_eq_ofLE]
  simpa [byteLen, List.length_reverse] using h

/-- Lemma: `PublicKey.toBuffer` recovers a byte buffer of at most 32 bytes from
its `BN` value, left-padded with zero bytes to 32. -/
lemma pkBytes32_pad (l : List Nat) (h32 : l.length ≤ 32) (hb : ∀ x ∈ l, x < 256) :
    pkBytes32 (bnOfBytes l) = List.replicate (32 - l.length) 0 ++ l := by
  have hr : ∀ x ∈ l.reverse, x < 256 := fun x hx => hb x (List.mem_reverse.mp hx)
  obtain ⟨h1, h2⟩ := natDigits_ofLE l.reverse hr
  rw [List.length_reverse] at h1
  rw [List.reverse_reverse] at h2
  rw [bnOfBytes_eq_ofLE, pkBytes32]
  have hsplit : 32 - byteLen (ofLE l.reverse)
      = (32 - l.length) + (l.length - byteLen (ofLE l.reverse)) := by
    have : byteLen (ofLE l.reverse) ≤ l.length := by simpa [byteLen] using h1
    omega
  rw [hsplit, List.replicate_add, List.append_assoc]
  congr 1
  simpa [byteLen, List.length_reverse] using h2

/-- On a buffer of at most 32 (byte-valued) entries, the `PublicKey`
constructor succeeds and stores the buffer's `BN` value. -/
lemma publicKeyFromBytes_eq (l : List Nat) (h32 : l.length ≤ 32)
    (hb : ∀ x ∈ l, x < 256) :
    publicKeyFromBytes l = some (bnOfBytes l) := by
  have h := byteLen_bnOfBytes_le l hb
  simp only [publicKeyFromBytes]
  rw [if_neg (by omega)]

/-- Claim C4: for a program account owned by the upgradeable loader whose
data has at least 36 byte-valued entries, a little-endian status tag of 3
at offset 0 makes the resolver return exactly bytes [4,36) of the buffer
as the ProgramDataAddress (the returned key's canonical 32-byte buffer is
that slice verbatim), and any other tag value yields `null` without
throwing. -/
theorem c4_program_state_parsing (i : AccountInfo) (pid : String) (t : Nat)
    (hown : i.owner = BPF_LOADER_UPGRADEABLE_PROGRAM_ID)
    (hlen : 36 ≤ i.data.length)
    (hb : ∀ x ∈ i.data, x < 256)
    (ht : readUInt32LE i.data 0 = some t) :
    getProgramDataAddress (some i) pid
      = Except.ok (if t = 3 then some (bnOfBytes (subarray i.data 4 36)) else none)
    ∧ pkBytes32 (bnOfBytes (subarray i.data 4 36)) = subarray i.data 4 36 := by
  have hslice_len : (subarray i.data 4 36).length = 32 := by
    simp only [subarray, List.length_drop, List.length_take]
    omega
  have hslice_b : ∀ x ∈ subarray i.data 4 36, x < 256 := by
    intro x hx
    exact hb x (List.mem_of_mem_take (List.mem_of_mem_drop hx))
  have hpad := pkBytes32_pad (subarray i.data 4 36) (by omega) hslice_b
  rw [hslice_len] at hpad
  simp only [Nat.sub_self, List.replicate_zero, List.nil_append] at hpad
  refine ⟨?_, hpad⟩
  have hpk := publicKeyFromBytes_eq (subarray i.data 4 36) (by omega) hslice_b
  simp only [getProgramDataAddress, hown, if_true, eq_self_iff_true, ht]
  by_cases h3 : t = 3
  · subst h3
    simp [hpk]
  · simp [h3]

/-- Claim C4 witness: a concrete loader-owned account with tag 3 and data
bytes `0..31` behind the tag. -/
theorem c4_witness :
    (c4Account.owner = BPF_LOADER_UPGRADEABLE_PROGRAM_ID
      ∧ 36 ≤ c4Account.data.length
      ∧ readUInt32LE c4Account.data 0 = some 3)
    ∧ (getProgramDataAddress (some c4Account) "program"
        = Except.ok (if (3 : Nat) = 3
            then some (bnOfBytes (subarray c4Account.data 4 36)) else none)
      ∧ pkBytes32 (bnOfBytes (subarray c4Account.data 4 36))
        = subarray c4Account.data 4 36) :=
  ⟨⟨rfl, by decide, by decide⟩,
    c4_program_state_parsing c4Account "program" 3 rfl (by decide) (by decide) (by decide)⟩

/-- Claim C10 is false as stated: a loader-owned account whose data is
only the 4 tag bytes (tag 3) makes the resolver return a key (the all-zero
address) instead of throwing, and a full run over it exits 0 with no
error. -/
theorem c10_counterexample :
    shortDataAccount.owner = BPF_LOADER_UPGRADEABLE_PROGRAM_ID
    ∧ shortDataAccount.data.length < 36
    ∧ getProgramDataAddress (some shortDataAccount) pid32 = Except.ok (some 0)
    ∧ (run envBase oracleShortData).exitCode = 0
    ∧ (run envBase oracleShortData).error = none :=
  ⟨rfl, by decide, by decide, by decide, by decide⟩

/-- Claim C10 as amended: with a loader-owned account of fewer than 36
data bytes, only a buffer shorter than 4 bytes makes the status read throw
(and then any run over that account exits 1); with at least 4 bytes the
resolver does not throw: a tag other than 3 yields `null` (immutable
path), and tag 3 yields a ProgramDataAddress built from the truncated
bytes `[4, length)`, zero-padded on the left to 32 bytes. -/
theorem c10_short_buffer_behavior (i : AccountInfo) (pid : String)
    (hown : i.owner = BPF_LOADER_UPGRADEABLE_PROGRAM_ID)
    (hb : ∀ x ∈ i.data, x < 256)
    (hlt : i.data.length < 36) :
    (i.data.length < 4 →
      getProgramDataAddress (some i) pid = Except.error RunError.bufferOutOfRange)
    ∧ (∀ t, readUInt32LE i.data 0 = some t → t ≠ 3 →
        getProgramDataAddress (some i) pid = Except.ok none)
    ∧ (readUInt32LE i.data 0 = some 3 →
        getProgramDataAddress (some i) pid = Except.ok (some (bnOfBytes (i.data.drop 4)))
        ∧ pkBytes32 (bnOfBytes (i.data.drop 4))
          = List.replicate (36 - i.data.length) 0 ++ i.data.drop 4)
    ∧ (∀ (e : Env) (o : Oracle), o.accountInfo = some i → i.data.length < 4 →
        (run e o).exitCode = 1) := by
  have hsub : subarray i.data 4 36 = i.data.drop 4 := by
    simp only [subarray]
    rw [List.take_of_length_le (by omega)]
  have herr : ∀ s, i.data.length < 4 →
      getProgramDataAddress (some i) s = Except.error RunError.bufferOutOfRange := by
    intro s h4
    have hr : readUInt32LE i.data 0 = none := by
      simp only [readUInt32LE]
      rw [if_neg (by omega)]
    simp [getProgramDataAddress, hown, hr]
  refine ⟨herr pid, ?_, ?_, ?_⟩
  · intro t ht hne
    simp [getProgramDataAddress, hown, ht, hne]
  · intro ht3
    have h4 : 4 ≤ i.data.length := by
      by_contra hc
      have hr : readUInt32LE i.data 0 = none := by
        simp only [readUInt32LE]
        rw [if_neg (by omega)]
      rw [hr] at ht3
      exact Option.noConfusion ht3
    have hdb : ∀ x ∈ i.data.drop 4, x < 256 := fun x hx => hb x (List.mem_of_mem_drop hx)
    have hdl : (i.data.drop 4).length = i.data.length - 4 := List.length_drop 4 i.data
    have hpk := publicKeyFromBytes_eq (i.data.drop 4) (by omega) hdb
    refine ⟨?_, ?_⟩
    · simp [getProgramDataAddress, hown, ht3, hsub, hpk]
    · have hpad := pkBytes32_pad (i.data.drop 4) (by omega) hdb
      rw [hpad, hdl]
      congr 2
      omega
  · intro e o ho h4
    unfold run
    by_cases hvc : (isMissing (mkConfig e).HELIUS_API_KEY || isMissing (mkConfig e).PROGRAM_ID
        || isMissing (mkConfig e).IDL_ACCOUNT) = true
    · simp [hvc]
    · simp only [Bool.not_eq_true] at hvc
      cases hq : pubkeyFromBase58 ((mkConfig e).PROGRAM_ID.getD "") with
      | none => simp [hvc, hq]
      | some pk => simp [hvc, hq, ho, herr (base58Encode32 pk) h4]

/-- Claim C10 (amended) witness: the 4-byte loader account; its tag reads
as 3 and the resolver returns the all-zero address built from the empty
truncated slice. -/
theorem c10_short_buffer_behavior_witness :
    (shortDataAccount.owner = BPF_LOADER_UPGRADEABLE_PROGRAM_ID
      ∧ (∀ x ∈ shortDataAccount.data, x < 256)
      ∧ shortDataAccount.data.length < 36)
    ∧ ((shortDataAccount.data.length < 4 →
        getProgramDataAddress (some shortDataAccount) "p"
          = Except.error RunError.bufferOutOfRange)
      ∧ (∀ t, readUInt32LE shortDataAccount.data 0 = some t → t ≠ 3 →
          getProgramDataAddress (some shortDataAccount) "p" = Except.ok none)
      ∧ (readUInt32LE shortDataAccount.data 0 = some 3 →
          getProgramDataAddress (some shortDataAccount) "p"
            = Except.ok (some (bnOfBytes (shortDataAccount.data.drop 4)))
          ∧ pkBytes32 (bnOfBytes (shortDataAccount.data.drop 4))
            = List.replicate (36 - shortDataAccount.data.length) 0
              ++ shortDataAccount.data.drop 4)
      ∧ (∀ (e : Env) (o : Oracle), o.accountInfo = some shortDataAccount →
          shortDataAccount.data.length < 4 → (run e o).exitCode = 1)) :=
  ⟨⟨rfl, by decide, by decide⟩,
    c10_short_buffer_behavior shortDataAccount "p" rfl (by decide) (by decide)⟩

/-- Claim C8: the comparison of `check-idl.ts` is monotone in the
program-side timestamp: raising `A.timestamp` with `B` fixed can never
turn OUTDATED into OK. -/
theorem c8_compare_monotone (A A' B : HeliusTx)
    (hle : A.timestamp ≤ A'.timestamp)
    (hout : (compareChange (some A) (some B)).1 = Verdict.OUTDATED) :
    (compareChange (some A') (some B)).1 = Verdict.OUTDATED := by
  simp only [compareChange] at hout ⊢
  by_cases h : A.timestamp > B.timestamp
  · rw [if_pos (by omega)]
  · rw [if_neg h] at hout
    exact absurd hout (by simp)

/-- Claim C8 witness: concrete records with `A.order = 2 ≤ 3 = A'.order`
and `B.order = 1`, both OUTDATED. -/
theorem c8_compare_monotone_witness :
    ((2 : Int) ≤ 3
      ∧ (compareChange (some ⟨"a", 2⟩) (some ⟨"b", 1⟩)).1 = Verdict.OUTDATED)
    ∧ (compareChange (some ⟨"a", 3⟩) (some ⟨"b", 1⟩)).1 = Verdict.OUTDATED :=
  ⟨⟨by decide, by decide⟩,
    c8_compare_monotone ⟨"a", 2⟩ ⟨"a", 3⟩ ⟨"b", 1⟩ (by decide) (by decide)⟩

/-- Claim C9: the `rpc-url` / `RPC_URL` input has no effect: with all
chain responses held equal, changing only `RPC_URL` (directly, or through
the action input layer of `action.ts`) leaves the whole run result --
exit code, connection URL, queried addresses, verdict and report data --
identical, because `CONFIG` never reads `RPC_URL`. -/
theorem c9_rpc_url_has_no_effect :
    (∀ (e : Env) (o : Oracle) (v : Option String),
      run { e with RPC_URL := v } o = run e o)
    ∧ (∀ (r₁ r₂ p : String) (e : Env) (o : Oracle),
      run (applyActionInputs r₁ p e) o = run (applyActionInputs r₂ p e) o) :=
  ⟨fun _ _ _ => rfl, fun _ _ _ _ _ => rfl⟩

/-- Claim C1 is false as stated: two runs with the same program address
(and identical chain responses) that differ only in the `IDL_ACCOUNT`
environment variable inspect different IDL addresses, so the IDL address
used by the check is not a function of the program address alone. -/
theorem c1_counterexample :
    envBase.PROGRAM_ID = envOtherIdl.PROGRAM_ID
    ∧ (run envBase oracleAllTx5).fetchedAddresses.getD 1 "" = "idl-account"
    ∧ (run envOtherIdl oracleAllTx5).fetchedAddresses.getD 1 "" = "other-idl" :=
  ⟨rfl, by decide, by decide⟩

/-- Claim C1 as amended: the IDL address the check inspects is taken
verbatim from the `IDL_ACCOUNT` environment variable (the second address
handed to the history fetcher); no address-with-seed derivation from the
program address is performed. -/
theorem c1_idl_address_from_env (e : Env) (o : Oracle) (idlStr : String) (pk pd : Nat)
    (hH : isMissing e.HELIUS_API_KEY = false)
    (hPm : isMissing e.PROGRAM_ID = false)
    (hIm : isMissing e.IDL_ACCOUNT = false)
    (hI : e.IDL_ACCOUNT = some idlStr)
    (hpk : pubkeyFromBase58 (e.PROGRAM_ID.getD "") = some pk)
    (hres : getProgramDataAddress o.accountInfo (base58Encode32 pk) = Except.ok (some pd)) :
    (run e o).fetchedAddresses = [base58Encode32 pd, idlStr] := by
  rw [hI] at hIm
  cases hq1 : o.history (base58Encode32 pd) with
  | error m =>
    simp [run, mkConfig, hH, hPm, hIm, hI, hpk, hres, hq1, getLatestTransaction]
  | ok txs =>
    cases hq2 : o.history idlStr with
    | error m =>
      simp [run, mkConfig, hH, hPm, hIm, hI, hpk, hres, hq1, hq2, getLatestTransaction]
    | ok txs₂ =>
      simp [run, mkConfig, hH, hPm, hIm, hI, hpk, hres, hq1, hq2, getLatestTransaction]

/-- Claim C1 (amended) witness: the base environment queries exactly the
resolved program-data address and the `IDL_ACCOUNT` value. -/
theorem c1_idl_address_from_env_witness :
    (envBase.IDL_ACCOUNT = some "idl-account"
      ∧ pubkeyFromBase58 (envBase.PROGRAM_ID.getD "") = some 0)
    ∧ (run envBase oracleAllTx5).fetchedAddresses = [base58Encode32 0, "idl-account"] :=
  ⟨⟨rfl, by decide⟩,
    c1_idl_address_from_env envBase oracleAllTx5 "idl-account" 0 0
      (by decide) (by decide) (by decide) rfl (by decide) (by decide)⟩

/-- Claim C2 is contradicted by the code: with both fetches succeeding,
program-data history empty and IDL history present, the run reaches the
comparison, the verdict is INDETERMINATE ("Cannot determine upgrade
status"), the report is printed -- but the process exits 0, not 1 as the
claim (and the repository README) state. -/
theorem c2_code_behavior :
    (run envBase oracleNoProgramHistory).comparatorEvaluated = true
    ∧ (run envBase oracleNoProgramHistory).verdict = some Verdict.INDETERMINATE
    ∧ (run envBase oracleNoProgramHistory).error = none
    ∧ (run envBase oracleNoProgramHistory).exitCode = 0 := by
  refine ⟨by decide, by decide, by decide, by decide⟩

/-- Claim C3: when both change records are present, the verdict and exit
code are decided by strict inequality on the ordering (timestamp) field:
OUTDATED with exit 1 exactly when the program-data record is strictly
newer, OK with exit 0 otherwise (so equal timestamps yield OK). -/
theorem c3_strict_comparison (e : Env) (o : Oracle) (pk pd : Nat)
    (pt it : HeliusTx) (ptRest itRest : List HeliusTx)
    (hH : isMissing e.HELIUS_API_KEY = false)
    (hPm : isMissing e.PROGRAM_ID = false)
    (hIm : isMissing e.IDL_ACCOUNT = false)
    (hpk : pubkeyFromBase58 (e.PROGRAM_ID.getD "") = some pk)
    (hres : getProgramDataAddress o.accountInfo (base58Encode32 pk) = Except.ok (some pd))
    (hph : o.history (base58Encode32 pd) = Except.ok (pt :: ptRest))
    (hih : o.history (e.IDL_ACCOUNT.getD "") = Except.ok (it :: itRest)) :
    (run e o).verdict
      = some (if pt.timestamp > it.timestamp then Verdict.OUTDATED else Verdict.OK)
    ∧ (run e o).exitCode = (if pt.timestamp > it.timestamp then 1 else 0)
    ∧ (run e o).comparatorEvaluated = true := by
  simp [run, mkConfig, hH, hPm, hIm, hpk, hres, hph, hih,
    getLatestTransaction, compareChange]
  by_cases h : it.timestamp < pt.timestamp
  · simp [h]
  · simp [h]

/-- Claim C3 witness: equal timestamps (a tie) yield verdict OK and exit
code 0. -/
theorem c3_witness :
    (oracleAllTx5.history (base58Encode32 0)
        = Except.ok [{ signature := "sig", timestamp := 5 }]
      ∧ oracleAllTx5.history (envBase.IDL_ACCOUNT.getD "")
        = Except.ok [{ signature := "sig", timestamp := 5 }])
    ∧ ((run envBase oracleAllTx5).verdict
        = some (if (5 : Int) > 5 then Verdict.OUTDATED else Verdict.OK)
      ∧ (run envBase oracleAllTx5).exitCode = (if (5 : Int) > 5 then 1 else 0)
      ∧ (run envBase oracleAllTx5).comparatorEvaluated = true) :=
  ⟨⟨rfl, rfl⟩,
    c3_strict_comparison envBase oracleAllTx5 0 0
      { signature := "sig", timestamp := 5 } { signature := "sig", timestamp := 5 } [] []
      (by decide) (by decide) (by decide) (by decide) (by decide) rfl rfl⟩

/-- Claim C5: when the program account exists but resolves to a null
ProgramDataAddress (not an upgradeable program), the run exits 0 and no
history fetch is issued for either address. -/
theorem c5_immutable_program_exit0 (e : Env) (o : Oracle) (pk : Nat) (i : AccountInfo)
    (hH : isMissing e.HELIUS_API_KEY = false)
    (hPm : isMissing e.PROGRAM_ID = false)
    (hIm : isMissing e.IDL_ACCOUNT = false)
    (hpk : pubkeyFromBase58 (e.PROGRAM_ID.getD "") = some pk)
    (hacct : o.accountInfo = some i)
    (hres : getProgramDataAddress (some i) (base58Encode32 pk) = Except.ok none) :
    (run e o).exitCode = 0
    ∧ (run e o).fetchedAddresses = []
    ∧ (run e o).comparatorEvaluated = false
    ∧ (run e o).verdict = none := by
  simp [run, mkConfig, hH, hPm, hIm, hpk, hacct, hres]

/-- Claim C5 witness: an account owned by key value 1 (not the loader). -/
theorem c5_witness :
    (oracleForeignOwner.accountInfo = some { owner := 1, data := [] }
      ∧ getProgramDataAddress (some { owner := 1, data := [] }) (base58Encode32 0)
        = Except.ok none)
    ∧ ((run envBase oracleForeignOwner).exitCode = 0
      ∧ (run envBase oracleForeignOwner).fetchedAddresses = []
      ∧ (run envBase oracleForeignOwner).comparatorEvaluated = false
      ∧ (run envBase oracleForeignOwner).verdict = none) :=
  ⟨⟨rfl, by decide⟩,
    c5_immutable_program_exit0 envBase oracleForeignOwner 0 { owner := 1, data := [] }
      (by decide) (by decide) (by decide) (by decide) rfl (by decide)⟩

/-- Claim C6: with program-data history present and IDL history empty,
the verdict is INDETERMINATE and the process exits 1. -/
theorem c6_missing_idl_history_exit1 (e : Env) (o : Oracle) (pk pd : Nat)
    (pt : HeliusTx) (ptRest : List HeliusTx)
    (hH : isMissing e.HELIUS_API_KEY = false)
    (hPm : isMissing e.PROGRAM_ID = false)
    (hIm : isMissing e.IDL_ACCOUNT = false)
    (hpk : pubkeyFromBase58 (e.PROGRAM_ID.getD "") = some pk)
    (hres : getProgramDataAddress o.accountInfo (base58Encode32 pk) = Except.ok (some pd))
    (hph : o.history (base58Encode32 pd) = Except.ok (pt :: ptRest))
    (hih : o.history (e.IDL_ACCOUNT.getD "") = Except.ok ([] : List HeliusTx)) :
    (run e o).exitCode = 1
    ∧ (run e o).verdict = some Verdict.INDETERMINATE
    ∧ (run e o).comparatorEvaluated = true := by
  simp [run, mkConfig, hH, hPm, hIm, hpk, hres, hph, hih,
    getLatestTransaction, compareChange]

/-- Claim C6 witness: IDL account with zero history records. -/
theorem c6_witness :
    (oracleNoIdlHistory.history (base58Encode32 0)
        = Except.ok [{ signature := "sig", timestamp := 5 }]
      ∧ oracleNoIdlHistory.history (envBase.IDL_ACCOUNT.getD "")
        = Except.ok ([] : List HeliusTx))
    ∧ ((run envBase oracleNoIdlHistory).exitCode = 1
      ∧ (run envBase oracleNoIdlHistory).verdict = some Verdict.INDETERMINATE
      ∧ (run envBase oracleNoIdlHistory).comparatorEvaluated = true) :=
  ⟨⟨by decide, by decide⟩,
    c6_missing_idl_history_exit1 envBase oracleNoIdlHistory 0 0
      { signature := "sig", timestamp := 5 } []
      (by decide) (by decide) (by decide) (by decide) (by decide)
      (by decide) (by decide)⟩

/-- Claim C7: if either history fetch fails at the transport level, the
run exits 1 without the comparison logic ever running; the failure is
recorded (not swallowed) as a fetch error carrying the queried address and
its diagnostic label, and both fetches were issued. -/
theorem c7_transport_error_exit1 (e : Env) (o : Oracle) (pk pd : Nat) (msg : String)
    (hH : isMissing e.HELIUS_API_KEY = false)
    (hPm : isMissing e.PROGRAM_ID = false)
    (hIm : isMissing e.IDL_ACCOUNT = false)
    (hpk : pubkeyFromBase58 (e.PROGRAM_ID.getD "") = some pk)
    (hres : getProgramDataAddress o.accountInfo (base58Encode32 pk) = Except.ok (some pd))
    (hfail : o.history (base58Encode32 pd) = Except.error msg
      ∨ o.history (e.IDL_ACCOUNT.getD "") = Except.error msg) :
    (run e o).exitCode = 1
    ∧ (run e o).comparatorEvaluated = false
    ∧ (run e o).verdict = none
    ∧ (run e o).fetchedAddresses = [base58Encode32 pd, e.IDL_ACCOUNT.getD ""]
    ∧ (∃ a l m, (run e o).error = some (RunError.fetch a l m)
        ∧ ((a = base58Encode32 pd ∧ l = "ProgramData" ∧ o.history a = Except.error m)
          ∨ (a = e.IDL_ACCOUNT.getD "" ∧ l = "IDL Account"
              ∧ o.history a = Except.error m))) := by
  cases hfail with
  | inl h =>
    refine ⟨?_, ?_, ?_, ?_, base58Encode32 pd, "ProgramData", msg, ?_, Or.inl ⟨rfl, rfl, h⟩⟩
      <;> simp [run, mkConfig, hH, hPm, hIm, hpk, hres, h, getLatestTransaction]
  | inr h =>
    cases hph : o.history (base58Encode32 pd) with
    | error m₂ =>
      refine ⟨?_, ?_, ?_, ?_, base58Encode32 pd, "ProgramData", m₂, ?_,
          Or.inl ⟨rfl, rfl, hph⟩⟩
        <;> simp [run, mkConfig, hH, hPm, hIm, hpk, hres, hph, getLatestTransaction]
    | ok txs =>
      refine ⟨?_, ?_, ?_, ?_, e.IDL_ACCOUNT.getD "", "IDL Account", msg, ?_,
          Or.inr ⟨rfl, rfl, h⟩⟩
        <;> simp [run, mkConfig, hH, hPm, hIm, hpk, hres, hph, h, getLatestTransaction]

/-- Claim C7 witness: both fetches fail with a transport error; the run
exits 1, the comparison never runs, and the recorded error carries the
program-data address and its label. -/
theorem c7_witness :
    (oracleTransportFail.history (base58Encode32 0) = Except.error "network down"
      ∨ oracleTransportFail.history (envBase.IDL_ACCOUNT.getD "")
        = Except.error "network down")
    ∧ ((run envBase oracleTransportFail).exitCode = 1
      ∧ (run envBase oracleTransportFail).comparatorEvaluated = false
      ∧ (run envBase oracleTransportFail).verdict = none
      ∧ (run envBase oracleTransportFail).fetchedAddresses
          = [base58Encode32 0, envBase.IDL_ACCOUNT.getD ""]
      ∧ (∃ a l m, (run envBase oracleTransportFail).error = some (RunError.fetch a l m)
          ∧ ((a = base58Encode32 0 ∧ l = "ProgramData"
                ∧ oracleTransportFail.history a = Except.error m)
            ∨ (a = envBase.IDL_ACCOUNT.getD "" ∧ l = "IDL Account"
                ∧ oracleTransportFail.history a = Except.error m)))) :=
  ⟨Or.inl rfl,
    c7_transport_error_exit1 envBase oracleTransportFail 0 0 "network down"
      (by decide) (by decide) (by decide) (by decide) (by decide) (Or.inl rfl)⟩
